import Mathlib

/-!
Shallow embedding of kube-fip-controller (sapcc/kube-fip-controller).

The embedding covers `cmd/main.go` (flag registration, startup, signal
handling, shutdown), the `pkg/metrics` package (Prometheus counter
registration and the metrics HTTP server), and — modelled from the spec
where the controller package sources are not available — the work-queue
backoff policy and the FIP find-or-create procedure.
-/

namespace KubeFipController

/-! ## CLI flags (cmd/main.go, init) -/

/-- One kingpin flag registration: its name, its default value as the raw
string passed to `.Default(...)` (none when no default is given), and
whether `.Required()` was called. -/
structure FlagSpec where
  name : String
  defaultValue : Option String
  required : Bool
deriving DecidableEq, Repr

/-- The flag registrations performed by `init` in cmd/main.go, in source
order.  (`kingpin.Version` additionally installs the version flag; it binds
no option field.) -/
def registeredFlags : List FlagSpec :=
  [ ⟨"kubeconfig", none, false⟩
  , ⟨"debug", some "false", false⟩
  , ⟨"threadiness", some "1", false⟩
  , ⟨"recheck-interval", some "10m", false⟩
  , ⟨"metric-host", some "0.0.0.0", false⟩
  , ⟨"metric-port", some "9091", false⟩
  , ⟨"default-floating-network", none, true⟩
  , ⟨"default-floating-subnet", none, true⟩
  , ⟨"config", none, true⟩ ]

/-- The parsed option set `config.Options`, with Go types rendered as:
`time.Duration` as seconds, `net.IP` as its string form. -/
structure Options where
  kubeConfig : String
  isDebug : Bool
  threadiness : Int
  recheckIntervalSeconds : Nat
  metricHost : String
  metricPort : Int
  defaultFloatingNetwork : String
  defaultFloatingSubnet : String
  configPath : String
deriving DecidableEq, Repr

/-- A command-line invocation: for each registered flag, the typed value the
caller supplied, or `none` when the flag was omitted. -/
structure Invocation where
  kubeconfig : Option String
  debug : Option Bool
  threadiness : Option Int
  recheckIntervalSeconds : Option Nat
  metricHost : Option String
  metricPort : Option Int
  defaultFloatingNetwork : Option String
  defaultFloatingSubnet : Option String
  config : Option String
deriving DecidableEq, Repr

/-- kingpin parse semantics over the registrations of `init`: every omitted
flag with a default takes that default ("10m" is 600 seconds; the optional
`kubeconfig` keeps Go's zero string), and parsing fails when any flag marked
`Required` is missing. -/
def parseFlags (inv : Invocation) : Option Options :=
  match inv.defaultFloatingNetwork, inv.defaultFloatingSubnet, inv.config with
  | some dfn, some dfs, some cfg =>
      some
        { kubeConfig := inv.kubeconfig.getD ""
        , isDebug := inv.debug.getD false
        , threadiness := inv.threadiness.getD 1
        , recheckIntervalSeconds := inv.recheckIntervalSeconds.getD 600
        , metricHost := inv.metricHost.getD "0.0.0.0"
        , metricPort := inv.metricPort.getD 9091
        , defaultFloatingNetwork := dfn
        , defaultFloatingSubnet := dfs
        , configPath := cfg }
  | _, _, _ => none

/-! ## Prometheus counters (pkg/metrics) -/

/-- The identity of a Prometheus counter as built by `prometheus.NewCounter`:
namespace, name and help text. -/
structure CounterOpts where
  nspace : String
  name : String
  help : String
deriving DecidableEq, Repr

def metricNamespace : String := "kube_fip_controller"

def MetricErrorAssociateInstanceAndFIP : CounterOpts :=
  ⟨metricNamespace, "associate_instance_fip_errors_total",
   "Counter for associating instance and FIP errors."⟩

def MetricErrorCreateFIP : CounterOpts :=
  ⟨metricNamespace, "create_fip_errors_total",
   "Counter for creating FIP errors."⟩

def MetricSuccessfulOperations : CounterOpts :=
  ⟨metricNamespace, "successful_operations_total",
   "Counter for successful operations."⟩

def MetricFailedOperations : CounterOpts :=
  ⟨metricNamespace, "failed_operations_total",
   "Counter for failed operations."⟩

/-- The counters passed to `prometheus.MustRegister` by the metrics
package's `init`, in source order. -/
def metricsInitRegistered : List CounterOpts :=
  [ MetricErrorAssociateInstanceAndFIP
  , MetricErrorCreateFIP
  , MetricSuccessfulOperations
  , MetricFailedOperations ]

/-- Events of process startup, ordered: Go runs every package `init`
(here: the metrics registrations) before `main` begins. -/
inductive StartupEvent where
  | registerCounter (c : CounterOpts)
  | parseCmdline
  | controllerRun
  | serveMetrics
deriving DecidableEq, Repr

/-- The startup order of the process: the metrics package `init` registers
the four counters, then `main` parses flags, starts the controller
(`go c.Run`) and the metrics server (`go metrics.ServeMetrics`). -/
def startupTrace : List StartupEvent :=
  metricsInitRegistered.map StartupEvent.registerCounter
    ++ [StartupEvent.parseCmdline, StartupEvent.controllerRun, StartupEvent.serveMetrics]

/-! ## main's control flow (cmd/main.go, main) -/

/-- The externally visible actions `main` performs, in order. -/
inductive MainAction where
  | parseCmdline
  | callControllerNew
  | logFatal
  | goRun
  | goServeMetrics
  | waitSignal
  | wgWait
  | closeStop
deriving DecidableEq, Repr

/-- The action trace of `main` as a function of the outcome of
`controller.New`.  On error, main logs a fatal message and returns (the
deferred `close(stop)` still runs); on success it spawns `c.Run` and
`metrics.ServeMetrics`, blocks on the signal channel, then waits on the
wait group before the deferred close. -/
def mainTrace (newResult : Except String Unit) : List MainAction :=
  match newResult with
  | .error _ =>
      [MainAction.parseCmdline, MainAction.callControllerNew,
       MainAction.logFatal, MainAction.closeStop]
  | .ok _ =>
      [MainAction.parseCmdline, MainAction.callControllerNew,
       MainAction.goRun, MainAction.goServeMetrics,
       MainAction.waitSignal, MainAction.wgWait, MainAction.closeStop]

/-! ## The metrics HTTP server (pkg/metrics, ServeMetrics) -/

/-- An HTTP handler as identified by the server configuration. -/
inductive Handler where
  | promHandler
deriving DecidableEq, Repr

/-- `server.Handler = promhttp.Handler()` in ServeMetrics installs the
Prometheus handler as the `http.Server`'s handler: with no mux in between,
every request path is dispatched to it. -/
def serverHandlerFor (_path : String) : Handler := Handler.promHandler

/-- `ReadHeaderTimeout: 5 * time.Second` on the `http.Server`. -/
def readHeaderTimeoutSeconds : Nat := 5

/-- `addr := fmt.Sprintf("%s:%d", host.String(), port)`. -/
def metricsAddr (host : String) (port : Int) : String :=
  host ++ ":" ++ toString port

/-- The externally visible events of one ServeMetrics call. -/
inductive ServeEvent where
  | wgAdd
  | logListenError
  | logServing
  | startHTTPServer
  | waitStop
  | wgDone
deriving DecidableEq, Repr

/-- The event trace of `ServeMetrics` as a function of whether
`net.Listen("tcp", addr)` succeeded.  `wg.Add(1)` runs first and the
deferred `wg.Done()` runs on return in both cases; on listen failure the
function logs and returns without starting the server or touching the stop
channel.  The function has no return value: a listen failure is not
reported to the caller. -/
def serveMetricsTrace (listenOk : Bool) : List ServeEvent :=
  if listenOk then
    [ServeEvent.wgAdd, ServeEvent.logServing, ServeEvent.startHTTPServer,
     ServeEvent.waitStop, ServeEvent.wgDone]
  else
    [ServeEvent.wgAdd, ServeEvent.logListenError, ServeEvent.wgDone]

/-! ## Concurrency model of main + ServeMetrics

A small-step interleaving model of the goroutines of cmd/main.go that share
the wait group and the stop channel.  `c.Run` does not touch either, so it
is not modelled.  The stop channel is closed exactly when main's deferred
`close(stop)` has run, which happens after `wg.Wait()` returns; the process
then exits, so no goroutine steps after that point. -/

/-- main's control position: blocked on `<-sigs`; blocked in `wg.Wait()`;
or returned (deferred `close(stop)` ran and the process exited). -/
inductive MainPhase where
  | atSigWait
  | atWgWait
  | ended
deriving DecidableEq, Repr

/-- The ServeMetrics goroutine's position: spawned but `wg.Add(1)` not yet
executed; after `wg.Add(1)`, at the `net.Listen` call; blocked on `<-stop`
with the server running; returned after a listen failure; or returned after
`<-stop` was satisfied. -/
inductive ServePhase where
  | spawned
  | listening
  | blockedOnStop
  | failedListen
  | returned
deriving DecidableEq, Repr

/-- Shared state: both goroutines' positions, the wait-group counter, and
whether a SIGINT/SIGTERM has been delivered.  The stop channel is closed
iff `main = .ended`. -/
structure SysState where
  main : MainPhase
  serve : ServePhase
  wg : Nat
  signaled : Bool
deriving DecidableEq, Repr

/-- One interleaving step.  Serve-goroutine steps require the process to be
alive (`main ≠ .ended`): once main returns, the runtime exits and kills the
goroutines.  `mainWgDone` fires only when the wait-group counter is zero;
`serveStopRecv` would require the stop channel closed, i.e. `main = .ended`,
at which point the process has already exited — hence no such step exists. -/
inductive Step : SysState → SysState → Prop where
  | signal (m : MainPhase) (sv : ServePhase) (w : Nat) :
      Step ⟨m, sv, w, false⟩ ⟨m, sv, w, true⟩
  | mainSigRecv (sv : ServePhase) (w : Nat) :
      Step ⟨MainPhase.atSigWait, sv, w, true⟩ ⟨MainPhase.atWgWait, sv, w, true⟩
  | mainWgDone (sv : ServePhase) (sg : Bool) :
      Step ⟨MainPhase.atWgWait, sv, 0, sg⟩ ⟨MainPhase.ended, sv, 0, sg⟩
  | serveAdd (m : MainPhase) (w : Nat) (sg : Bool) (h : m ≠ MainPhase.ended) :
      Step ⟨m, ServePhase.spawned, w, sg⟩ ⟨m, ServePhase.listening, w + 1, sg⟩
  | serveListenOk (m : MainPhase) (w : Nat) (sg : Bool) (h : m ≠ MainPhase.ended) :
      Step ⟨m, ServePhase.listening, w, sg⟩ ⟨m, ServePhase.blockedOnStop, w, sg⟩
  | serveListenFail (m : MainPhase) (w : Nat) (sg : Bool) (h : m ≠ MainPhase.ended) :
      Step ⟨m, ServePhase.listening, w + 1, sg⟩ ⟨m, ServePhase.failedListen, w, sg⟩

/-- Reachability in zero or more interleaving steps. -/
def Reach : SysState → SysState → Prop := Relation.ReflTransGen Step

/-- The initial state of the success path of main: both goroutines spawned,
main blocked on `<-sigs`, no signal yet, wait group at zero. -/
def initState : SysState :=
  ⟨MainPhase.atSigWait, ServePhase.spawned, 0, false⟩

/-- The combined invariant of the interleaving model: whenever the
ServeMetrics goroutine holds the wait group (listening or blocked on stop),
the counter is at least 1, and whenever it is blocked on the stop channel
the process has not exited (so the stop channel is not closed). -/
def SysInv (s : SysState) : Prop :=
  ((s.serve = ServePhase.listening ∨ s.serve = ServePhase.blockedOnStop) → 1 ≤ s.wg)
    ∧ (s.serve = ServePhase.blockedOnStop → s.main ≠ MainPhase.ended)

/-- The deadlock configuration: the metrics goroutine is blocked on the
stop channel, the process is alive, and the wait group is held. -/
def Deadlocked (s : SysState) : Prop :=
  s.serve = ServePhase.blockedOnStop ∧ s.main ≠ MainPhase.ended ∧ 1 ≤ s.wg

/-! ## Counter monotonicity (prometheus Counter semantics) -/

/-- Modelled from the spec: the reconciler and error handler (pkg/controller,
not under src/) touch the four counters only through the prometheus
`Counter` interface — `Inc` and `Add` of a non-negative amount; the spec's
contract is "the contract is only that they are monotonic counters". -/
inductive CounterOp where
  | inc
  | add (v : Nat)
deriving DecidableEq, Repr

/-- Effect of one prometheus Counter operation on the counter's value. -/
def applyCounterOp (x : Nat) (op : CounterOp) : Nat :=
  match op with
  | CounterOp.inc => x + 1
  | CounterOp.add v => x + v

/-- The value of counter `c` after the first `n` counter events of an
execution (each event names the counter it targets). -/
def counterValueAt (events : List (CounterOpts × CounterOp)) (c : CounterOpts)
    (n : Nat) : Nat :=
  (events.take n).foldl
    (fun x e => if e.1 = c then applyCounterOp x e.2 else x) 0

/-! ## Work-queue backoff (spec-modelled) -/

/-- Modelled from the spec: the work queue's per-key rate limiter
(pkg/controller, not under src/) is an exponential backoff "starts at 30
seconds and is capped at 600 seconds". -/
def baseDelaySeconds : Nat := 30

/-- Modelled from the spec: the backoff cap. -/
def maxDelaySeconds : Nat := 600

/-- Modelled from the spec: the delay assigned to a key's n-th re-admission
(n = number of requeues so far): exponential in n from the base, capped. -/
def backoffDelay (numRequeues : Nat) : Nat :=
  min (baseDelaySeconds * 2 ^ numRequeues) maxDelaySeconds

/-- Modelled from the spec: the retry ceiling — "If numRequeues(key) < 5,
add(key) ... Otherwise, forget(key) and log-drop". -/
def maxRetries : Nat := 5

/-- Per-key queue state: how many times the key has failed (and been
requeued) in the current streak. -/
structure KeyState where
  requeues : Nat
deriving DecidableEq, Repr

/-- Modelled from the spec: the scheduler's error handler on a failed sync of
a key.  Returns `some (delay, st)` when the key is re-admitted after `delay`
seconds with updated state, and `none` when it is forgotten and dropped. -/
def handleErr (st : KeyState) : Option (Nat × KeyState) :=
  if st.requeues < maxRetries then
    some (backoffDelay st.requeues, ⟨st.requeues + 1⟩)
  else
    none

/-! ## findOrCreateFIP (spec-modelled, §4.3.1) -/

/-- A floating IP as the cloud adapter sees it. -/
structure FloatingIP where
  id : String
  floatingIP : String
  tenantID : String
  fixedIP : String
  portID : String
  description : String
deriving DecidableEq, Repr

/-- The FIP description written on creation: the constant string, or the
nodepool-templated form when a nodepool is present. -/
def fipDescription (nodepool : String) : String :=
  if nodepool = "" then "Floating IP allocated by kube-fip-controller"
  else "Floating IP allocated by kube-fip-controller nodepool=" ++ nodepool

/-- Modelled from the spec: the search phase of findOrCreateFIP
(pkg/controller cloud adapter, not under src/): list FIPs filtered by
projectID; by the requested address when nonempty; and by the nodepool
description when reuse applies (reuse set, empty requested address,
nonempty nodepool). -/
def searchFIPs (cloud : List FloatingIP) (requestedAddress projectID nodepool : String)
    (reuse : Bool) : List FloatingIP :=
  cloud.filter fun f =>
    f.tenantID == projectID
      && (requestedAddress == "" || f.floatingIP == requestedAddress)
      && (!(reuse && requestedAddress == "" && !(nodepool == ""))
            || f.description == fipDescription nodepool)

/-- Modelled from the spec: the select phase — walk the candidates in
listing order; pick the first whose address equals the (nonempty) requested
address, or, under reuse with empty requested address and nonempty
nodepool, the first whose fixedIP is empty (not attached). -/
def selectFIP (candidates : List FloatingIP) (requestedAddress nodepool : String)
    (reuse : Bool) : Option FloatingIP :=
  candidates.find? fun f =>
    (!(requestedAddress == "") && f.floatingIP == requestedAddress)
      || (reuse && requestedAddress == "" && !(nodepool == "") && f.fixedIP == "")

/-- The arguments of a FIP create call issued to the cloud. -/
structure CreateOpts where
  floatingNetworkID : String
  subnetID : String
  tenantID : String
  floatingIP : String
  description : String
deriving DecidableEq, Repr

/-- The FIP the cloud returns for a create call (id, port assignment and the
echoed request fields; the cloud picks the address when the request's is
empty — modelled as echoing the request). -/
def createdFIP (o : CreateOpts) : FloatingIP :=
  ⟨"", o.floatingIP, o.tenantID, "", "", o.description⟩

/-- Modelled from the spec: findOrCreateFIP — search, select, and create
only when no entry was selected.  Returns the resulting FIP together with
the list of create calls issued to the cloud. -/
def findOrCreateFIP (cloud : List FloatingIP)
    (requestedAddress networkID subnetID projectID nodepool : String)
    (reuse : Bool) : FloatingIP × List CreateOpts :=
  match selectFIP (searchFIPs cloud requestedAddress projectID nodepool reuse)
      requestedAddress nodepool reuse with
  | some f => (f, [])
  | none =>
      let o : CreateOpts :=
        ⟨networkID, subnetID, projectID, requestedAddress, fipDescription nodepool⟩
      (createdFIP o, [o])

/-! ## Helper lemmas -/

lemma sysInv_step {s t : SysState} (hst : Step s t) (hs : SysInv s) : SysInv t := by
  obtain ⟨h1, h2⟩ := hs
  cases hst with
  | signal m sv w => exact ⟨h1, h2⟩
  | mainSigRecv sv w =>
      refine ⟨h1, fun _ => by simp⟩
  | mainWgDone sv sg =>
      exact ⟨fun hc => h1 hc, fun hc => absurd (h1 (Or.inr hc)) (Nat.not_succ_le_zero 0)⟩
  | serveAdd m w sg h =>
      exact ⟨fun _ => Nat.le_add_left 1 w, by simp⟩
  | serveListenOk m w sg h =>
      exact ⟨fun _ => h1 (Or.inl rfl), fun _ => h⟩
  | serveListenFail m w sg h =>
      exact ⟨by simp, by simp⟩

lemma sysInv_reach {s t : SysState} (h : Reach s t) (hs : SysInv s) : SysInv t := by
  induction h with
  | refl => exact hs
  | tail _ hstep ih => exact sysInv_step hstep ih

lemma sysInv_init : SysInv initState := by
  constructor <;> simp [initState]

lemma deadlocked_step {s t : SysState} (hst : Step s t) (hs : Deadlocked s) :
    Deadlocked t := by
  obtain ⟨h1, h2, h3⟩ := hs
  cases hst with
  | signal m sv w => exact ⟨h1, h2, h3⟩
  | mainSigRecv sv w => exact ⟨h1, by simp, h3⟩
  | mainWgDone sv sg => exact absurd h3 (by simp_all)
  | serveAdd m w sg h => simp_all
  | serveListenOk m w sg h => simp_all
  | serveListenFail m w sg h => simp_all

lemma deadlocked_reach {s t : SysState} (h : Reach s t) (hs : Deadlocked s) :
    Deadlocked t := by
  induction h with
  | refl => exact hs
  | tail _ hstep ih => exact deadlocked_step hstep ih

lemma le_applyCounterOp (x : Nat) (op : CounterOp) : x ≤ applyCounterOp x op := by
  cases op <;> simp [applyCounterOp]

lemma counter_foldl_le (c : CounterOpts) :
    ∀ (l : List (CounterOpts × CounterOp)) (x : Nat),
      x ≤ l.foldl (fun a e => if e.1 = c then applyCounterOp a e.2 else a) x
  | [], _ => le_refl _
  | e :: l, x => by
      have h1 : x ≤ (if e.1 = c then applyCounterOp x e.2 else x) := by
        split
        · exact le_applyCounterOp x e.2
        · exact le_refl x
      exact le_trans h1 (counter_foldl_le c l _)

/-! ## Claim theorems -/

/-- C1: the CLI registers exactly the nine option-bearing flags
`kubeconfig` (optional), `debug` (default false), `threadiness`
(default 1), `recheck-interval` (default 10m = 600s), `metric-host`
(default 0.0.0.0), `metric-port` (default 9091), and the required
`default-floating-network`, `default-floating-subnet` and `config`;
every invocation that omits a flag with a default yields the default in
the corresponding option field, and parsing succeeds exactly when the
three required flags are supplied. -/
theorem C1_cli_flags :
    registeredFlags =
      [ ⟨"kubeconfig", none, false⟩
      , ⟨"debug", some "false", false⟩
      , ⟨"threadiness", some "1", false⟩
      , ⟨"recheck-interval", some "10m", false⟩
      , ⟨"metric-host", some "0.0.0.0", false⟩
      , ⟨"metric-port", some "9091", false⟩
      , ⟨"default-floating-network", none, true⟩
      , ⟨"default-floating-subnet", none, true⟩
      , ⟨"config", none, true⟩ ]
    ∧ (∀ inv o, parseFlags inv = some o →
        (inv.kubeconfig = none → o.kubeConfig = "")
        ∧ (inv.debug = none → o.isDebug = false)
        ∧ (inv.threadiness = none → o.threadiness = 1)
        ∧ (inv.recheckIntervalSeconds = none → o.recheckIntervalSeconds = 600)
        ∧ (inv.metricHost = none → o.metricHost = "0.0.0.0")
        ∧ (inv.metricPort = none → o.metricPort = 9091))
    ∧ (∀ inv, (parseFlags inv).isSome ↔
        (inv.defaultFloatingNetwork.isSome ∧ inv.defaultFloatingSubnet.isSome
          ∧ inv.config.isSome)) := by
  refine ⟨rfl, ?_, ?_⟩
  · intro inv o h
    cases hdfn : inv.defaultFloatingNetwork with
    | none => simp [parseFlags, hdfn] at h
    | some dfn =>
      cases hdfs : inv.defaultFloatingSubnet with
      | none => simp [parseFlags, hdfn, hdfs] at h
      | some dfs =>
        cases hcfg : inv.config with
        | none => simp [parseFlags, hdfn, hdfs, hcfg] at h
        | some cfg =>
          simp only [parseFlags, hdfn, hdfs, hcfg, Option.some.injEq] at h
          refine ⟨fun hx => ?_, fun hx => ?_, fun hx => ?_, fun hx => ?_,
                  fun hx => ?_, fun hx => ?_⟩ <;>
            simp [← h, hx]
  · intro inv
    cases hdfn : inv.defaultFloatingNetwork <;>
      cases hdfs : inv.defaultFloatingSubnet <;>
        cases hcfg : inv.config <;>
          simp [parseFlags, hdfn, hdfs, hcfg]

/-- C1 witness: parsing an invocation that supplies only the three required
flags succeeds with every defaulted field at its default. -/
theorem C1_cli_flags_witness :
    parseFlags ⟨none, none, none, none, none, none, some "fn", some "fs", some "c"⟩
        = some ⟨"", false, 1, 600, "0.0.0.0", 9091, "fn", "fs", "c"⟩
      ∧ (⟨"", false, 1, 600, "0.0.0.0", 9091, "fn", "fs", "c"⟩ : Options).isDebug
        = false := by
  refine ⟨rfl, ?_⟩
  exact (C1_cli_flags.2.1
    ⟨none, none, none, none, none, none, some "fn", some "fs", some "c"⟩
    ⟨"", false, 1, 600, "0.0.0.0", 9091, "fn", "fs", "c"⟩ rfl).2.1 rfl

/-- C2: the metrics package registers, at package initialization, exactly
four counters, all in namespace `kube_fip_controller`, with the four
documented names, each exactly once, and every registration precedes the
start of the controller and of the metrics server in the startup order. -/
theorem C2_counter_registration :
    metricsInitRegistered.map CounterOpts.name =
      [ "associate_instance_fip_errors_total"
      , "create_fip_errors_total"
      , "successful_operations_total"
      , "failed_operations_total" ]
    ∧ metricsInitRegistered.map CounterOpts.nspace =
      [metricNamespace, metricNamespace, metricNamespace, metricNamespace]
    ∧ (metricsInitRegistered.map CounterOpts.name).Nodup
    ∧ startupTrace =
      [ StartupEvent.registerCounter MetricErrorAssociateInstanceAndFIP
      , StartupEvent.registerCounter MetricErrorCreateFIP
      , StartupEvent.registerCounter MetricSuccessfulOperations
      , StartupEvent.registerCounter MetricFailedOperations
      , StartupEvent.parseCmdline
      , StartupEvent.controllerRun
      , StartupEvent.serveMetrics ]
    ∧ startupTrace.count
        (StartupEvent.registerCounter MetricErrorAssociateInstanceAndFIP) = 1
    ∧ startupTrace.count (StartupEvent.registerCounter MetricErrorCreateFIP) = 1
    ∧ startupTrace.count (StartupEvent.registerCounter MetricSuccessfulOperations) = 1
    ∧ startupTrace.count (StartupEvent.registerCounter MetricFailedOperations) = 1 := by
  refine ⟨rfl, rfl, ?_, rfl, ?_, ?_, ?_, ?_⟩ <;> decide

/-- C3: when `controller.New` fails, main logs a fatal error and returns
(only the deferred close runs); in particular `c.Run` is never invoked. -/
theorem C3_fatal_before_run (e : String) :
    mainTrace (Except.error e) =
      [MainAction.parseCmdline, MainAction.callControllerNew,
       MainAction.logFatal, MainAction.closeStop]
    ∧ MainAction.goRun ∉ mainTrace (Except.error e) := by
  refine ⟨rfl, ?_⟩
  simp [mainTrace]

/-- C3 witness: the trace of main at a concrete `controller.New` error
contains no invocation of `c.Run`. -/
theorem C3_fatal_before_run_witness :
    MainAction.goRun ∉ mainTrace (Except.error "auth config missing") :=
  (C3_fatal_before_run "auth config missing").2

/-- C4 (code bug): after SIGINT/SIGTERM the process does not terminate.
The post-signal state — metrics goroutine blocked on the stop channel,
wait group held, main in `wg.Wait()` — is reachable, and from it no
reachable state has main returned (`MainPhase.ended`, i.e. the deferred
`close(stop)` ran and the process exited): `wg.Wait()` waits for
ServeMetrics, which waits for the stop channel, which is closed only after
`wg.Wait()` returns. -/
theorem C4_signal_shutdown_hangs :
    Reach initState ⟨MainPhase.atWgWait, ServePhase.blockedOnStop, 1, true⟩
    ∧ ∀ t, Reach ⟨MainPhase.atWgWait, ServePhase.blockedOnStop, 1, true⟩ t →
        t.main ≠ MainPhase.ended := by
  constructor
  · have h1 : Step initState ⟨MainPhase.atSigWait, ServePhase.listening, 1, false⟩ :=
      Step.serveAdd MainPhase.atSigWait 0 false (by decide)
    have h2 : Step ⟨MainPhase.atSigWait, ServePhase.listening, 1, false⟩
        ⟨MainPhase.atSigWait, ServePhase.blockedOnStop, 1, false⟩ :=
      Step.serveListenOk MainPhase.atSigWait 1 false (by decide)
    have h3 : Step ⟨MainPhase.atSigWait, ServePhase.blockedOnStop, 1, false⟩
        ⟨MainPhase.atSigWait, ServePhase.blockedOnStop, 1, true⟩ :=
      Step.signal MainPhase.atSigWait ServePhase.blockedOnStop 1
    have h4 : Step ⟨MainPhase.atSigWait, ServePhase.blockedOnStop, 1, true⟩
        ⟨MainPhase.atWgWait, ServePhase.blockedOnStop, 1, true⟩ :=
      Step.mainSigRecv ServePhase.blockedOnStop 1
    exact Relation.ReflTransGen.tail
      (Relation.ReflTransGen.tail
        (Relation.ReflTransGen.tail
          (Relation.ReflTransGen.tail Relation.ReflTransGen.refl h1) h2) h3) h4
  · intro t ht
    exact (deadlocked_reach ht ⟨rfl, by decide, le_refl 1⟩).2.1

/-- C4 witness: the post-signal deadlocked state itself has not terminated. -/
theorem C4_signal_shutdown_hangs_witness :
    (⟨MainPhase.atWgWait, ServePhase.blockedOnStop, 1, true⟩ : SysState).main
      ≠ MainPhase.ended :=
  C4_signal_shutdown_hangs.2 _ Relation.ReflTransGen.refl

/-- C9: in every reachable state in which ServeMetrics has incremented the
wait group and is blocked on the stop channel, every subsequently reachable
state still has it blocked and has main not yet exited — so the stop
channel (closed exactly when main has run its deferred close and returned)
is never closed before ServeMetrics returns, and the post-signal shutdown
sequence cannot complete. -/
theorem C9_stop_never_closed_while_blocked (s t : SysState)
    (hreach : Reach initState s)
    (hblocked : s.serve = ServePhase.blockedOnStop)
    (ht : Reach s t) :
    t.serve = ServePhase.blockedOnStop ∧ t.main ≠ MainPhase.ended := by
  have hinv := sysInv_reach hreach sysInv_init
  have hd := deadlocked_reach ht ⟨hblocked, hinv.2 hblocked, hinv.1 (Or.inr hblocked)⟩
  exact ⟨hd.1, hd.2.1⟩

/-- C9 witness: applied to the concrete reachable state in which
ServeMetrics holds the wait group and blocks on the stop channel. -/
theorem C9_stop_never_closed_while_blocked_witness :
    (⟨MainPhase.atSigWait, ServePhase.blockedOnStop, 1, false⟩ : SysState).serve
        = ServePhase.blockedOnStop
      ∧ (⟨MainPhase.atSigWait, ServePhase.blockedOnStop, 1, false⟩ : SysState).main
        ≠ MainPhase.ended := by
  have h1 : Step initState ⟨MainPhase.atSigWait, ServePhase.listening, 1, false⟩ :=
    Step.serveAdd MainPhase.atSigWait 0 false (by decide)
  have h2 : Step ⟨MainPhase.atSigWait, ServePhase.listening, 1, false⟩
      ⟨MainPhase.atSigWait, ServePhase.blockedOnStop, 1, false⟩ :=
    Step.serveListenOk MainPhase.atSigWait 1 false (by decide)
  exact C9_stop_never_closed_while_blocked _ _
    (Relation.ReflTransGen.tail
      (Relation.ReflTransGen.tail Relation.ReflTransGen.refl h1) h2)
    rfl Relation.ReflTransGen.refl

/-- C5 counterexample: the claim that paths other than `/metrics` are not
served the Prometheus handler is false — `server.Handler` is the
Prometheus handler itself, with no path routing, so the request path `/`
is also served by it. -/
theorem C5_counterexample :
    ¬("/" = "/metrics") ∧ serverHandlerFor "/" = Handler.promHandler :=
  ⟨by decide, rfl⟩

/-- C5 amended: the metrics HTTP server uses a 5-second read-header
timeout, listens on the `host:port` address format of the source, and
serves the Prometheus handler for every request path — in particular for
`/metrics`. -/
theorem C5_amended_metrics_server :
    readHeaderTimeoutSeconds = 5
    ∧ serverHandlerFor "/metrics" = Handler.promHandler
    ∧ (∀ p : String, serverHandlerFor p = Handler.promHandler)
    ∧ metricsAddr "0.0.0.0" 9091 = "0.0.0.0:9091" := by
  exact ⟨rfl, rfl, fun p => rfl, by decide⟩

/-- C5 amended witness: the amended statement at the path `/metrics`. -/
theorem C5_amended_metrics_server_witness :
    serverHandlerFor "/metrics" = Handler.promHandler :=
  C5_amended_metrics_server.2.2.1 "/metrics"

/-- C10: when the TCP listen fails, ServeMetrics logs the error and returns
(releasing the wait group) without starting the HTTP server and without
waiting on the stop channel; the function returns no error to its caller,
and the rest of the process keeps running: the state with main past the
signal and the metrics goroutine returned is reachable and main can
complete its shutdown from there. -/
theorem C10_listen_failure_not_fatal :
    serveMetricsTrace false
        = [ServeEvent.wgAdd, ServeEvent.logListenError, ServeEvent.wgDone]
    ∧ ServeEvent.startHTTPServer ∉ serveMetricsTrace false
    ∧ ServeEvent.waitStop ∉ serveMetricsTrace false
    ∧ Reach initState ⟨MainPhase.atWgWait, ServePhase.failedListen, 0, true⟩
    ∧ Step ⟨MainPhase.atWgWait, ServePhase.failedListen, 0, true⟩
        ⟨MainPhase.ended, ServePhase.failedListen, 0, true⟩ := by
  refine ⟨rfl, by decide, by decide, ?_,
    Step.mainWgDone ServePhase.failedListen true⟩
  have h1 : Step initState ⟨MainPhase.atSigWait, ServePhase.listening, 1, false⟩ :=
    Step.serveAdd MainPhase.atSigWait 0 false (by decide)
  have h2 : Step ⟨MainPhase.atSigWait, ServePhase.listening, 1, false⟩
      ⟨MainPhase.atSigWait, ServePhase.failedListen, 0, false⟩ :=
    Step.serveListenFail MainPhase.atSigWait 0 false (by decide)
  have h3 : Step ⟨MainPhase.atSigWait, ServePhase.failedListen, 0, false⟩
      ⟨MainPhase.atSigWait, ServePhase.failedListen, 0, true⟩ :=
    Step.signal MainPhase.atSigWait ServePhase.failedListen 0
  have h4 : Step ⟨MainPhase.atSigWait, ServePhase.failedListen, 0, true⟩
      ⟨MainPhase.atWgWait, ServePhase.failedListen, 0, true⟩ :=
    Step.mainSigRecv ServePhase.failedListen 0
  exact Relation.ReflTransGen.tail
    (Relation.ReflTransGen.tail
      (Relation.ReflTransGen.tail
        (Relation.ReflTransGen.tail Relation.ReflTransGen.refl h1) h2) h3) h4

/-- C6: every counter is monotonic — along any execution's counter events,
the value a counter has after `n` events is at most its value after any
later point `m`; no operation decreases or resets a counter. -/
theorem C6_counters_monotonic (events : List (CounterOpts × CounterOp))
    (c : CounterOpts) (n m : Nat) (h : n ≤ m) :
    counterValueAt events c n ≤ counterValueAt events c m := by
  have hm : n + (m - n) = m := Nat.add_sub_cancel' h
  unfold counterValueAt
  rw [← hm, List.take_add, List.foldl_append]
  exact counter_foldl_le c _ _

/-- C6 witness: a concrete increment of the success counter never lowers
its observed value. -/
theorem C6_counters_monotonic_witness :
    counterValueAt [(MetricSuccessfulOperations, CounterOp.inc)]
        MetricSuccessfulOperations 0
      ≤ counterValueAt [(MetricSuccessfulOperations, CounterOp.inc)]
        MetricSuccessfulOperations 1
    ∧ counterValueAt [(MetricSuccessfulOperations, CounterOp.inc)]
        MetricSuccessfulOperations 1 = 1 :=
  ⟨C6_counters_monotonic _ _ 0 1 (by decide), by decide⟩

/-- C7: backoff delays are non-decreasing in the requeue count, start at 30
seconds, stay within [30, 600] seconds, and the error handler re-admits a
failed key exactly while it has failed fewer than 5 times, forgetting and
dropping it afterwards. -/
theorem C7_backoff_policy (n m : Nat) (h : n ≤ m) (st : KeyState) :
    backoffDelay n ≤ backoffDelay m
    ∧ backoffDelay 0 = 30
    ∧ 30 ≤ backoffDelay n
    ∧ backoffDelay n ≤ 600
    ∧ (st.requeues < 5 → handleErr st = some (backoffDelay st.requeues, ⟨st.requeues + 1⟩))
    ∧ (5 ≤ st.requeues → handleErr st = none) := by
  have hpow : (2 : Nat) ^ n ≤ 2 ^ m := Nat.pow_le_pow_right (by decide) h
  have hone : (1 : Nat) ≤ 2 ^ n := Nat.one_le_two_pow
  refine ⟨?_, by decide, ?_, ?_, ?_, ?_⟩
  · simp only [backoffDelay, baseDelaySeconds, maxDelaySeconds]
    exact min_le_min (Nat.mul_le_mul_left 30 hpow) (le_refl 600)
  · simp only [backoffDelay, baseDelaySeconds, maxDelaySeconds]
    refine le_min ?_ (by decide)
    calc (30 : Nat) = 30 * 1 := by ring
      _ ≤ 30 * 2 ^ n := Nat.mul_le_mul_left 30 hone
  · exact min_le_right _ _
  · intro hlt
    simp [handleErr, maxRetries, hlt]
  · intro hge
    simp [handleErr, maxRetries, Nat.not_lt.mpr hge]

/-- C7 witness: the first two delays of a streak are ordered, and a key
with 5 recorded failures is dropped. -/
theorem C7_backoff_policy_witness :
    backoffDelay 0 ≤ backoffDelay 1 ∧ handleErr ⟨5⟩ = none :=
  ⟨(C7_backoff_policy 0 1 (by decide) ⟨5⟩).1,
   (C7_backoff_policy 0 1 (by decide) ⟨5⟩).2.2.2.2.2 (by decide)⟩

/-- C8: every run of findOrCreateFIP issues at most one create call; a
create is issued exactly when the search-and-select phase chose no
existing FIP, and then its arguments are the given network, subnet and
project with the requested (possibly empty) address and the nodepool
description. -/
theorem C8_at_most_one_create (cloud : List FloatingIP)
    (requestedAddress networkID subnetID projectID nodepool : String)
    (reuse : Bool) :
    (findOrCreateFIP cloud requestedAddress networkID subnetID projectID
        nodepool reuse).2.length ≤ 1
    ∧ ((findOrCreateFIP cloud requestedAddress networkID subnetID projectID
          nodepool reuse).2 ≠ []
        ↔ selectFIP (searchFIPs cloud requestedAddress projectID nodepool reuse)
            requestedAddress nodepool reuse = none)
    ∧ (∀ o ∈ (findOrCreateFIP cloud requestedAddress networkID subnetID projectID
          nodepool reuse).2,
        o = ⟨networkID, subnetID, projectID, requestedAddress,
             fipDescription nodepool⟩) := by
  unfold findOrCreateFIP
  split <;> simp_all

/-- C8 witness: on an empty cloud with no requested address, exactly one
create call is issued, carrying the given network, subnet and project. -/
theorem C8_at_most_one_create_witness :
    (findOrCreateFIP [] "" "net-1" "sub-1" "proj-1" "" false).2.length ≤ 1
    ∧ (findOrCreateFIP [] "" "net-1" "sub-1" "proj-1" "" false).2
        = [⟨"net-1", "sub-1", "proj-1", "", fipDescription ""⟩] :=
  ⟨(C8_at_most_one_create [] "" "net-1" "sub-1" "proj-1" "" false).1, rfl⟩

end KubeFipController
